import Mathlib

/-!
Verification of the MoodTunes feature-to-mood pipeline.

This file gives a shallow embedding of the program: the mood scorer
`analyze_mood`, the audio path rule `get_audio_path`, the catalog loader
`load_all_tracks`, the batch processor `process_and_store` with its per-batch
commit discipline, and the database setup utility `create_database`.
Floating-point arithmetic of the source is modelled with exact rationals;
the SQLite store is modelled as in-memory lists of rows together with the
lists as of the last commit.
-/

/-- A feature vector maps a feature name to its value.  A result of `none`
models a key that is absent from the dictionary or bound to a non-numeric
value; in the source either case raises inside `analyze_mood` and is caught
by its handler, which returns `None`. -/
abbrev FeatureVector := String → Option ℚ

/-- The five mood intensities returned by `analyze_mood`. -/
structure MoodVector where
  happy_intensity : ℚ
  sad_intensity : ℚ
  energetic_intensity : ℚ
  calm_intensity : ℚ
  angry_intensity : ℚ
  deriving DecidableEq

/-- Embeds `min(features['tempo'] / 180.0, 1.0)` from `analyze_mood`. -/
def tempo_factor (tempo : ℚ) : ℚ := min (tempo / 180) 1

/-- Embeds `features['rms_energy'] * 10` from `analyze_mood`. -/
def energy_factor (rms_energy : ℚ) : ℚ := rms_energy * 10

/-- Embeds `features['spectral_centroid'] / 4000` from `analyze_mood`. -/
def brightness (spectral_centroid : ℚ) : ℚ := spectral_centroid / 4000

/-- Embeds `analyze_mood` from `app.py`.  The body reads exactly the four keys
`tempo`, `rms_energy`, `spectral_centroid` and `zero_crossing_rate`; a failed
lookup (or a non-numeric value) raises and the handler returns `None`,
modelled here by the `none` branch.  The upper clamp is `min(1.0, x)`; there
is no lower clamp. -/
def analyze_mood (features : FeatureVector) : Option MoodVector :=
  match features "tempo", features "rms_energy", features "spectral_centroid",
        features "zero_crossing_rate" with
  | some tempo, some rms, some centroid, some zcr =>
    let tf := tempo_factor tempo
    let ef := energy_factor rms
    let br := brightness centroid
    let energetic := min 1 ((tf + ef) / 2)
    let happy := min 1 ((br + tf) / 2)
    let angry := min 1 (ef * zcr)
    some { happy_intensity := happy, sad_intensity := 1 - happy,
           energetic_intensity := energetic, calm_intensity := 1 - energetic,
           angry_intensity := angry }
  | _, _, _, _ => none

/-- Embeds Python's `str.zfill` for non-negative numeric strings: pad on the
left with `'0'` up to `width` characters (a longer string is unchanged). -/
def zfill (width : ℕ) (s : String) : String :=
  String.mk (List.replicate (width - s.length) '0') ++ s

/-- Embeds `os.path.join` applied to four relative path components. -/
def path_join4 (a b c d : String) : String :=
  a ++ "/" ++ b ++ "/" ++ c ++ "/" ++ d

/-- Embeds `get_audio_path` from `app.py`:
`os.path.join('dataset', 'fma_small', tid_str[:3], f'{tid_str}.mp3')` with
`tid_str = str(track_id).zfill(6)`. -/
def get_audio_path (track_id : ℕ) : String :=
  let tid_str := zfill 6 (Nat.repr track_id)
  path_join4 "dataset" "fma_small" (tid_str.take 3) (tid_str ++ ".mp3")

/-- Restatement of the path rule in the words of the spec: directory
`dataset/fma_small`, subdirectory the first 3 characters of the 6-digit
zero-padded decimal id, filename the full padded string plus `.mp3`.
Compared against `get_audio_path`, which is embedded from the source. -/
def audio_path_claim (track_id : ℕ) : String :=
  "dataset/fma_small/" ++ (zfill 6 (Nat.repr track_id)).take 3 ++ "/" ++
    zfill 6 (Nat.repr track_id) ++ ".mp3"

/-- One row of the metadata catalog (`tracks.csv`): id plus the three
metadata fields the loader reads. -/
structure CatalogRow where
  track_id : ℕ
  title : String
  artist : String
  album : String
  deriving DecidableEq

/-- An item descriptor produced by `load_all_tracks`. -/
structure Track where
  track_id : ℕ
  title : String
  artist : String
  album : String
  file_path : String
  deriving DecidableEq

/-- Embeds `load_all_tracks` from `app.py`.  The catalog argument is `none`
when the metadata source cannot be read (the `except` branch of the source,
which logs and returns `[]`); `file_on_disk` models `os.path.exists`.  Rows
whose audio file is missing are silently excluded. -/
def load_all_tracks (catalog : Option (List CatalogRow)) (file_on_disk : String → Bool) :
    List Track :=
  match catalog with
  | none => []
  | some rows =>
      (rows.filter fun r => file_on_disk (get_audio_path r.track_id)).map fun r =>
        { track_id := r.track_id, title := r.title, artist := r.artist, album := r.album,
          file_path := get_audio_path r.track_id }

/-- A row of the `songs` table. -/
structure SongRow where
  track_id : ℕ
  title : String
  artist : String
  album : String
  file_path : String
  deriving DecidableEq

/-- A row of the `mood_analysis` table (the synthetic autoincrement key is
modelled by the position in the list). -/
structure MoodRow where
  track_id : ℕ
  happy_intensity : ℚ
  sad_intensity : ℚ
  energetic_intensity : ℚ
  calm_intensity : ℚ
  angry_intensity : ℚ
  deriving DecidableEq

/-- The SQLite database: current table contents plus the contents as of the
last `conn.commit()`. -/
structure DBState where
  songs : List SongRow
  mood_analysis : List MoodRow
  committed_songs : List SongRow
  committed_mood_analysis : List MoodRow
  deriving DecidableEq

/-- Embeds `INSERT OR REPLACE INTO songs` keyed on the primary key
`track_id`: any existing row with the same key is removed, the new row is
inserted. -/
def insertOrReplaceSong (r : SongRow) (tbl : List SongRow) : List SongRow :=
  (tbl.filter fun x => x.track_id != r.track_id) ++ [r]

/-- Embeds `INSERT INTO mood_analysis`: a plain append, no uniqueness on
`track_id`. -/
def insertMoodRow (r : MoodRow) (tbl : List MoodRow) : List MoodRow := tbl ++ [r]

/-- Embeds `conn.commit()`: the current table contents become durable. -/
def commit (db : DBState) : DBState :=
  { db with committed_songs := db.songs, committed_mood_analysis := db.mood_analysis }

/-- The running state of `process_and_store`: the database plus the two
counters. -/
structure RunState where
  db : DBState
  processed_count : ℕ
  error_count : ℕ
  deriving DecidableEq

/-- The `songs` row written for a track. -/
def songRowOf (t : Track) : SongRow :=
  { track_id := t.track_id, title := t.title, artist := t.artist, album := t.album,
    file_path := t.file_path }

/-- The `mood_analysis` row written for a track and its mood vector. -/
def moodRowOf (t : Track) (m : MoodVector) : MoodRow :=
  { track_id := t.track_id, happy_intensity := m.happy_intensity,
    sad_intensity := m.sad_intensity, energetic_intensity := m.energetic_intensity,
    calm_intensity := m.calm_intensity, angry_intensity := m.angry_intensity }

/-- Embeds the per-item body of the processing loop: extract features, score
the mood, and on success write the two rows and bump `processed_count`; any
failure bumps `error_count` and leaves the database untouched.  `extract`
models `extract_mood_features` (a `none` result covers both a returned `None`
and a raised exception, which the source catches per item). -/
def processTrack (extract : String → Option FeatureVector) (t : Track) (st : RunState) :
    RunState :=
  match extract t.file_path with
  | none => { st with error_count := st.error_count + 1 }
  | some features =>
    match analyze_mood features with
    | none => { st with error_count := st.error_count + 1 }
    | some moods =>
      { st with
        db := { st.db with
                songs := insertOrReplaceSong (songRowOf t) st.db.songs,
                mood_analysis := insertMoodRow (moodRowOf t moods) st.db.mood_analysis },
        processed_count := st.processed_count + 1 }

/-- Embeds the batched loop of `process_and_store`: items are processed in
order; after every `batch_size` items — and after the final partial batch —
the connection commits.  `in_batch` counts the items already processed in the
current batch, matching the slicing `tracks[i:i+batch_size]` of the source. -/
def processLoop (extract : String → Option FeatureVector) (batch_size : ℕ) :
    List Track → ℕ → RunState → RunState
  | [], in_batch, st => if in_batch = 0 then st else { st with db := commit st.db }
  | t :: ts, in_batch, st =>
      let st2 := processTrack extract t st
      if in_batch + 1 = batch_size then
        processLoop extract batch_size ts 0 { st2 with db := commit st2.db }
      else
        processLoop extract batch_size ts (in_batch + 1) st2

/-- Embeds `process_and_store` from `app.py`.  The second component of the
result is the console message of the early-return path: `some "No tracks
found!"` exactly when the loaded track list is empty, in which case the
database is returned untouched. -/
def process_and_store (catalog : Option (List CatalogRow)) (file_on_disk : String → Bool)
    (extract : String → Option FeatureVector) (batch_size : ℕ) (db0 : DBState) :
    RunState × Option String :=
  let tracks := load_all_tracks catalog file_on_disk
  if tracks.isEmpty then
    ({ db := db0, processed_count := 0, error_count := 0 }, some "No tracks found!")
  else
    (processLoop extract batch_size tracks 0
       { db := db0, processed_count := 0, error_count := 0 },
     none)

/-- A freshly created database: both tables exist and are empty. -/
def empty_database : DBState :=
  { songs := [], mood_analysis := [], committed_songs := [],
    committed_mood_analysis := [] }

/-- Embeds Python's `str.lower()` as used on the confirmation answer:
character-wise lowercasing. -/
def str_lower (s : String) : String := String.mk (s.data.map Char.toLower)

/-- Embeds `create_database` from `setup_database.py`.  `existing` is the
content of the database file if one is present.  When the file exists, the
user is asked for confirmation; any answer whose lowercase form differs from
`"y"` cancels creation and returns `False` with the file untouched, otherwise
the file is removed and recreated with empty tables. -/
def create_database (existing : Option DBState) (user_input : String) :
    Bool × Option DBState :=
  match existing with
  | some db =>
      if str_lower user_input != "y" then (false, some db)
      else (true, some empty_database)
  | none => (true, some empty_database)

/-- Success test for one item of the pipeline: feature extraction followed by
mood analysis both return a value. -/
def item_ok (extract : String → Option FeatureVector) (t : Track) : Bool :=
  ((extract t.file_path).bind analyze_mood).isSome

/-- The feature vector of the worked example in the spec: `tempo=180`,
`rms_energy=0.05`, `spectral_centroid=2000`, `zero_crossing_rate=0.1`, no
other keys present. -/
def fvExample : FeatureVector := fun k =>
  if k = "tempo" then some 180
  else if k = "rms_energy" then some (1/20)
  else if k = "spectral_centroid" then some 2000
  else if k = "zero_crossing_rate" then some (1/10)
  else none

/-- The mood vector the spec predicts for `fvExample`. -/
def mvExample : MoodVector :=
  { happy_intensity := 3/4, sad_intensity := 1/4, energetic_intensity := 3/4,
    calm_intensity := 1/4, angry_intensity := 1/20 }

/-- A feature vector with a negative tempo, exercising the missing lower
clamp of the mood formula. -/
def fvNegative : FeatureVector := fun k =>
  if k = "tempo" then some (-3600)
  else if k = "rms_energy" then some 0
  else if k = "spectral_centroid" then some 0
  else if k = "zero_crossing_rate" then some 0
  else none

/-- The mood vector `analyze_mood` computes for `fvNegative`. -/
def mvNegative : MoodVector :=
  { happy_intensity := -10, sad_intensity := 11, energetic_intensity := -10,
    calm_intensity := 11, angry_intensity := 0 }

/-- A copy of `fvExample` extended with one extra key, `mfcc_0`. -/
def fvExtraKey : FeatureVector := fun k =>
  if k = "mfcc_0" then some 99 else fvExample k

/-- A three-row catalog used to exercise the batch processor. -/
def catalogW : List CatalogRow :=
  [{ track_id := 1, title := "t1", artist := "a1", album := "b1" },
   { track_id := 2, title := "t2", artist := "a2", album := "b2" },
   { track_id := 3, title := "t3", artist := "a3", album := "b3" }]

/-- A feature vector on which the mood scorer always fails. -/
def fvBadW : FeatureVector := fun _ => none

/-- A concrete extractor: extraction always succeeds, but the audio file of
track 2 yields features on which scoring fails. -/
def extractW : String → Option FeatureVector :=
  fun p => some (if p = get_audio_path 2 then fvBadW else fvExample)

/-- The per-track feature assignment matching `extractW`. -/
def fvOfW : Track → FeatureVector :=
  fun t => if t.file_path = get_audio_path 2 then fvBadW else fvExample

/-- The first loaded track of `catalogW`. -/
def t1W : Track :=
  { track_id := 1, title := "t1", artist := "a1", album := "b1",
    file_path := get_audio_path 1 }

/-- The second loaded track of `catalogW`; the one whose scoring fails. -/
def badW : Track :=
  { track_id := 2, title := "t2", artist := "a2", album := "b2",
    file_path := get_audio_path 2 }

/-- The third loaded track of `catalogW`. -/
def t3W : Track :=
  { track_id := 3, title := "t3", artist := "a3", album := "b3",
    file_path := get_audio_path 3 }

/-- The track list `load_all_tracks` produces from `catalogW` when every file
is on disk. -/
def tracksW : List Track := [t1W, badW, t3W]

/-- A first `songs` row for track 7. -/
def r1W : SongRow :=
  { track_id := 7, title := "old", artist := "olda", album := "oldb",
    file_path := "oldp" }

/-- A second `songs` row for track 7 with different field values. -/
def r2W : SongRow :=
  { track_id := 7, title := "new", artist := "newa", album := "newb",
    file_path := "newp" }

/-- A first `mood_analysis` row for track 7. -/
def m1W : MoodRow :=
  { track_id := 7, happy_intensity := 1, sad_intensity := 0,
    energetic_intensity := 1, calm_intensity := 0, angry_intensity := 0 }

/-- A second `mood_analysis` row for track 7. -/
def m2W : MoodRow :=
  { track_id := 7, happy_intensity := 0, sad_intensity := 1,
    energetic_intensity := 0, calm_intensity := 1, angry_intensity := 0 }

/-! ### Helper lemmas -/

/-- Evaluation of the worked example, shared by several proofs below. -/
theorem analyze_mood_fvExample : analyze_mood fvExample = some mvExample := by
  simp [analyze_mood, fvExample, mvExample, tempo_factor, energy_factor, brightness]
  norm_num [min_def]

/-- Evaluation of the negative-tempo example. -/
theorem analyze_mood_fvNegative : analyze_mood fvNegative = some mvNegative := by
  simp [analyze_mood, fvNegative, mvNegative, tempo_factor, energy_factor, brightness]
  norm_num [min_def]

/-- Unfolding of the processing loop on the empty list: the final (possibly
partial) batch is committed exactly when it is non-empty. -/
theorem processLoop_nil (extract : String → Option FeatureVector) (bs k : ℕ) (st : RunState) :
    processLoop extract bs [] k st = if k = 0 then st else { st with db := commit st.db } := rfl

/-- Unfolding of the processing loop on a cons cell: the item is processed,
then the batch either closes with a commit or continues. -/
theorem processLoop_cons (extract : String → Option FeatureVector) (bs : ℕ) (t : Track)
    (ts : List Track) (k : ℕ) (st : RunState) :
    processLoop extract bs (t :: ts) k st =
      if k + 1 = bs then
        processLoop extract bs ts 0
          { processTrack extract t st with db := commit (processTrack extract t st).db }
      else
        processLoop extract bs ts (k + 1) (processTrack extract t st) := rfl

/-- Processing one item bumps `processed_count` exactly when the item
succeeds. -/
theorem processTrack_processed (extract : String → Option FeatureVector) (t : Track)
    (st : RunState) :
    (processTrack extract t st).processed_count
      = st.processed_count + (if item_ok extract t then 1 else 0) := by
  rcases hE : extract t.file_path with _ | f
  · simp [processTrack, item_ok, hE]
  · rcases hA : analyze_mood f with _ | m <;> simp [processTrack, item_ok, hE, hA]

/-- Processing one item bumps `error_count` exactly when the item fails. -/
theorem processTrack_error (extract : String → Option FeatureVector) (t : Track)
    (st : RunState) :
    (processTrack extract t st).error_count
      = st.error_count + (if item_ok extract t then 0 else 1) := by
  rcases hE : extract t.file_path with _ | f
  · simp [processTrack, item_ok, hE]
  · rcases hA : analyze_mood f with _ | m <;> simp [processTrack, item_ok, hE, hA]

/-- The two counters of the loop: successes and failures are counted across
all items, independently of the batch boundaries. -/
theorem processLoop_counts (extract : String → Option FeatureVector) (bs : ℕ) :
    ∀ (ts : List Track) (k : ℕ) (st : RunState),
      (processLoop extract bs ts k st).processed_count
          = st.processed_count + ts.countP (item_ok extract) ∧
      (processLoop extract bs ts k st).error_count
          = st.error_count + ts.countP (fun t => !item_ok extract t) := by
  intro ts
  induction ts with
  | nil =>
      intro k st
      rw [processLoop_nil]
      split <;> simp
  | cons t ts ih =>
      intro k st
      rw [processLoop_cons]
      by_cases hk : k + 1 = bs
      · rw [if_pos hk]
        obtain ⟨ihp, ihe⟩ :=
          ih 0 { processTrack extract t st with db := commit (processTrack extract t st).db }
        constructor
        · rw [ihp]
          simp only [processTrack_processed, List.countP_cons]
          split <;> omega
        · rw [ihe]
          simp only [processTrack_error, List.countP_cons, Bool.not_eq_true']
          split <;> rename_i hcond <;> simp [hcond]
          all_goals omega
      · rw [if_neg hk]
        obtain ⟨ihp, ihe⟩ := ih (k + 1) (processTrack extract t st)
        constructor
        · rw [ihp]
          simp only [processTrack_processed, List.countP_cons]
          split <;> omega
        · rw [ihe]
          simp only [processTrack_error, List.countP_cons, Bool.not_eq_true']
          split <;> rename_i hcond <;> simp [hcond]
          all_goals omega

/-- Processing an item never changes the committed table contents. -/
theorem processTrack_committed (extract : String → Option FeatureVector) (t : Track)
    (st : RunState) :
    (processTrack extract t st).db.committed_songs = st.db.committed_songs ∧
    (processTrack extract t st).db.committed_mood_analysis
        = st.db.committed_mood_analysis := by
  rcases hE : extract t.file_path with _ | f
  · simp [processTrack, hE]
  · rcases hA : analyze_mood f with _ | m <;> simp [processTrack, hE, hA]

/-- A `songs` row with a key different from the processed item's key
survives the item's processing. -/
theorem processTrack_songs_mono (extract : String → Option FeatureVector) (t : Track)
    (st : RunState) (r : SongRow) (hr : r ∈ st.db.songs) (hid : t.track_id ≠ r.track_id) :
    r ∈ (processTrack extract t st).db.songs := by
  rcases hE : extract t.file_path with _ | f
  · simpa [processTrack, hE] using hr
  · rcases hA : analyze_mood f with _ | m
    · simpa [processTrack, hE, hA] using hr
    · simp [processTrack, hE, hA, insertOrReplaceSong, songRowOf, List.mem_filter, hr]
      exact Or.inl fun hcontra => hid hcontra.symm

/-- `mood_analysis` rows are never removed by processing an item. -/
theorem processTrack_moods_mono (extract : String → Option FeatureVector) (t : Track)
    (st : RunState) (r : MoodRow) (hr : r ∈ st.db.mood_analysis) :
    r ∈ (processTrack extract t st).db.mood_analysis := by
  rcases hE : extract t.file_path with _ | f
  · simpa [processTrack, hE] using hr
  · rcases hA : analyze_mood f with _ | m
    · simpa [processTrack, hE, hA] using hr
    · simp [processTrack, hE, hA, insertMoodRow, hr]

/-- A `songs` row whose key differs from every remaining item's key survives
the rest of the run. -/
theorem processLoop_songs_mono (extract : String → Option FeatureVector) (bs : ℕ) :
    ∀ (ts : List Track) (k : ℕ) (st : RunState) (r : SongRow),
      r ∈ st.db.songs → (∀ u ∈ ts, u.track_id ≠ r.track_id) →
      r ∈ (processLoop extract bs ts k st).db.songs := by
  intro ts
  induction ts with
  | nil =>
      intro k st r hr _
      rw [processLoop_nil]
      split <;> simpa [commit]
  | cons t ts ih =>
      intro k st r hr hid
      have hstep : r ∈ (processTrack extract t st).db.songs :=
        processTrack_songs_mono extract t st r hr (hid t (by simp))
      have hid' : ∀ u ∈ ts, u.track_id ≠ r.track_id := fun u hu => hid u (by simp [hu])
      rw [processLoop_cons]
      by_cases hk : k + 1 = bs
      · rw [if_pos hk]
        exact ih 0 _ r (by simpa [commit] using hstep) hid'
      · rw [if_neg hk]
        exact ih (k + 1) _ r hstep hid'

/-- `mood_analysis` rows survive the rest of the run. -/
theorem processLoop_moods_mono (extract : String → Option FeatureVector) (bs : ℕ) :
    ∀ (ts : List Track) (k : ℕ) (st : RunState) (r : MoodRow),
      r ∈ st.db.mood_analysis →
      r ∈ (processLoop extract bs ts k st).db.mood_analysis := by
  intro ts
  induction ts with
  | nil =>
      intro k st r hr
      rw [processLoop_nil]
      split <;> simpa [commit]
  | cons t ts ih =>
      intro k st r hr
      have hstep : r ∈ (processTrack extract t st).db.mood_analysis :=
        processTrack_moods_mono extract t st r hr
      rw [processLoop_cons]
      by_cases hk : k + 1 = bs
      · rw [if_pos hk]
        exact ih 0 _ r (by simpa [commit] using hstep)
      · rw [if_neg hk]
        exact ih (k + 1) _ r hstep

/-- After a non-empty run, everything written is committed: the loop ends
with a commit of the final batch. -/
theorem processLoop_committed_eq (extract : String → Option FeatureVector) (bs : ℕ) :
    ∀ (ts : List Track) (k : ℕ) (st : RunState), ts ≠ [] →
      (processLoop extract bs ts k st).db.committed_songs
          = (processLoop extract bs ts k st).db.songs ∧
      (processLoop extract bs ts k st).db.committed_mood_analysis
          = (processLoop extract bs ts k st).db.mood_analysis := by
  intro ts
  induction ts with
  | nil => intro k st h; exact absurd rfl h
  | cons t ts ih =>
      intro k st _
      rcases ts with _ | ⟨u, us⟩
      · rw [processLoop_cons]
        by_cases hk : k + 1 = bs
        · rw [if_pos hk, processLoop_nil]
          simp [commit]
        · rw [if_neg hk, processLoop_nil]
          simp [commit]
      · rw [processLoop_cons]
        by_cases hk : k + 1 = bs
        · rw [if_pos hk]
          exact ih 0 _ (by simp)
        · rw [if_neg hk]
          exact ih (k + 1) _ (by simp)

/-- A successful item's two rows are present in the current tables at the end
of the run, provided no other item shares its key. -/
theorem processLoop_success_mem (extract : String → Option FeatureVector) (bs : ℕ) :
    ∀ (ts : List Track) (k : ℕ) (st : RunState) (t0 : Track) (m0 : MoodVector),
      t0 ∈ ts →
      (extract t0.file_path).bind analyze_mood = some m0 →
      (ts.map Track.track_id).Nodup →
      songRowOf t0 ∈ (processLoop extract bs ts k st).db.songs ∧
      moodRowOf t0 m0 ∈ (processLoop extract bs ts k st).db.mood_analysis := by
  intro ts
  induction ts with
  | nil => intro k st t0 m0 h; exact absurd h (List.not_mem_nil t0)
  | cons t ts ih =>
      intro k st t0 m0 hmem hsucc hnodup
      have hnodup' : (ts.map Track.track_id).Nodup := by
        simpa using hnodup.of_cons
      rcases List.mem_cons.mp hmem with heq | htail
      · subst heq
        obtain ⟨f, hE, hA⟩ := Option.bind_eq_some.mp hsucc
        have hpt : processTrack extract t0 st =
            { st with
              db := { st.db with
                      songs := insertOrReplaceSong (songRowOf t0) st.db.songs,
                      mood_analysis := insertMoodRow (moodRowOf t0 m0) st.db.mood_analysis },
              processed_count := st.processed_count + 1 } := by
          simp [processTrack, hE, hA]
        have hsong : songRowOf t0 ∈ (processTrack extract t0 st).db.songs := by
          simp [hpt, insertOrReplaceSong]
        have hmood : moodRowOf t0 m0 ∈ (processTrack extract t0 st).db.mood_analysis := by
          simp [hpt, insertMoodRow]
        have hid : ∀ u ∈ ts, u.track_id ≠ (songRowOf t0).track_id := by
          intro u hu
          have hnotmem : t0.track_id ∉ ts.map Track.track_id := by
            simpa using (List.nodup_cons.mp hnodup).1
          intro hcontra
          apply hnotmem
          rw [List.mem_map]
          exact ⟨u, hu, by simpa [songRowOf] using hcontra⟩
        rw [processLoop_cons]
        by_cases hk : k + 1 = bs
        · rw [if_pos hk]
          constructor
          · exact processLoop_songs_mono extract bs ts 0 _ _ (by simpa [commit] using hsong) hid
          · exact processLoop_moods_mono extract bs ts 0 _ _ (by simpa [commit] using hmood)
        · rw [if_neg hk]
          constructor
          · exact processLoop_songs_mono extract bs ts (k + 1) _ _ hsong hid
          · exact processLoop_moods_mono extract bs ts (k + 1) _ _ hmood
      · rw [processLoop_cons]
        by_cases hk : k + 1 = bs
        · rw [if_pos hk]
          exact ih 0 _ t0 m0 htail hsucc hnodup'
        · rw [if_neg hk]
          exact ih (k + 1) _ t0 m0 htail hsucc hnodup'

/-! ### Claims -/

/-- C1: on the feature vector with `tempo=180`, `rms_energy=0.05`,
`spectral_centroid=2000`, `zero_crossing_rate=0.1`, `analyze_mood` computes
`tempo_factor=1`, `energy_factor=0.5`, `brightness=0.5` and returns exactly
`energetic=0.75`, `happy=0.75`, `angry=0.05`, `calm=0.25`, `sad=0.25`. -/
theorem mood_scorer_worked_example :
    tempo_factor 180 = 1 ∧ energy_factor (1/20) = 1/2 ∧ brightness 2000 = 1/2 ∧
    analyze_mood fvExample = some mvExample ∧
    mvExample.energetic_intensity = 3/4 ∧ mvExample.happy_intensity = 3/4 ∧
    mvExample.angry_intensity = 1/20 ∧ mvExample.calm_intensity = 1/4 ∧
    mvExample.sad_intensity = 1/4 :=
  ⟨by norm_num [tempo_factor, min_def], by norm_num [energy_factor],
   by norm_num [brightness], analyze_mood_fvExample, rfl, rfl, rfl, rfl, rfl⟩

/-- C2: whenever `analyze_mood` succeeds, `calm_intensity` equals
`1 - energetic_intensity` and `sad_intensity` equals `1 - happy_intensity`,
by construction. -/
theorem mood_complement_invariant (features : FeatureVector) (m : MoodVector)
    (h : analyze_mood features = some m) :
    m.calm_intensity = 1 - m.energetic_intensity ∧
    m.sad_intensity = 1 - m.happy_intensity := by
  unfold analyze_mood at h
  rcases hT : features "tempo" with _ | tempo <;> rw [hT] at h <;>
  rcases hR : features "rms_energy" with _ | rms <;> rw [hR] at h <;>
  rcases hC : features "spectral_centroid" with _ | cen <;> rw [hC] at h <;>
  rcases hZ : features "zero_crossing_rate" with _ | zcr <;> rw [hZ] at h <;>
  simp only [Option.some.injEq, reduceCtorEq] at h
  subst h
  simp

/-- Witness for C2 at the worked example. -/
theorem mood_complement_invariant_witness :
    analyze_mood fvExample = some mvExample ∧
    mvExample.calm_intensity = 1 - mvExample.energetic_intensity ∧
    mvExample.sad_intensity = 1 - mvExample.happy_intensity := by
  have h : analyze_mood fvExample = some mvExample := analyze_mood_fvExample
  exact ⟨h, mood_complement_invariant fvExample mvExample h⟩

/-- C3: every successful mood vector has `energetic_intensity ≤ 1` and
`happy_intensity ≤ 1`, and no lower bound holds: on a negative-tempo input
both fields are negative. -/
theorem mood_upper_bound_no_lower_bound :
    (∀ (features : FeatureVector) (m : MoodVector), analyze_mood features = some m →
       m.energetic_intensity ≤ 1 ∧ m.happy_intensity ≤ 1) ∧
    (analyze_mood fvNegative = some mvNegative ∧
     mvNegative.energetic_intensity < 0 ∧ mvNegative.happy_intensity < 0) := by
  constructor
  · intro features m h
    unfold analyze_mood at h
    rcases hT : features "tempo" with _ | tempo <;> rw [hT] at h <;>
    rcases hR : features "rms_energy" with _ | rms <;> rw [hR] at h <;>
    rcases hC : features "spectral_centroid" with _ | cen <;> rw [hC] at h <;>
    rcases hZ : features "zero_crossing_rate" with _ | zcr <;> rw [hZ] at h <;>
    simp only [Option.some.injEq, reduceCtorEq] at h
    subst h
    constructor <;> simp [min_le_left]
  · refine ⟨analyze_mood_fvNegative, ?_, ?_⟩ <;> norm_num [mvNegative]

/-- Witness for C3's universal part at the worked example. -/
theorem mood_upper_bound_no_lower_bound_witness :
    analyze_mood fvExample = some mvExample ∧
    mvExample.energetic_intensity ≤ 1 ∧ mvExample.happy_intensity ≤ 1 := by
  have h : analyze_mood fvExample = some mvExample := analyze_mood_fvExample
  exact ⟨h, mood_upper_bound_no_lower_bound.1 fvExample mvExample h⟩

/-- C4: `get_audio_path` formats the id zero-padded to 6 digits, shards on
the first 3 characters and appends `.mp3` under `dataset/fma_small`; for any
id below `10^6` the padded string is exactly 6 characters; ids 42 and 123456
map to the two anchor paths of the spec. -/
theorem audio_path_rule :
    (∀ track_id : ℕ, get_audio_path track_id = audio_path_claim track_id) ∧
    get_audio_path 42 = "dataset/fma_small/000/000042.mp3" ∧
    get_audio_path 123456 = "dataset/fma_small/123/123456.mp3" ∧
    ∀ track_id : ℕ, track_id < 1000000 → (zfill 6 (Nat.repr track_id)).length = 6 := by
  refine ⟨?_, by decide, by decide, ?_⟩
  · intro tid
    unfold get_audio_path audio_path_claim path_join4
    simp [String.append_assoc]
  · intro tid h
    have hlen : (Nat.repr tid).length ≤ 6 := by
      apply Nat.repr_length tid 6 (by norm_num)
      norm_num
      exact h
    simp [zfill]
    omega

/-- Witness for C4's bounded-id part at id 42. -/
theorem audio_path_rule_witness :
    (zfill 6 (Nat.repr 42)).length = 6 :=
  audio_path_rule.2.2.2 42 (by decide)

/-- C5: in a run whose loaded batch contains exactly one item that always
fails at the scoring stage, the final `processed_count` is `N-1`, the final
`error_count` is `1`, the run completes (no early return), and the rows of
every successful item are committed to the store. -/
theorem batch_run_one_scoring_failure
    (catalog : Option (List CatalogRow)) (file_on_disk : String → Bool)
    (extract : String → Option FeatureVector) (batch_size : ℕ) (db0 : DBState)
    (tracks : List Track) (bad : Track) (fv : Track → FeatureVector) (mv : Track → MoodVector)
    (hload : load_all_tracks catalog file_on_disk = tracks)
    (hmem : bad ∈ tracks)
    (hcount : tracks.count bad = 1)
    (hnodup : (tracks.map Track.track_id).Nodup)
    (hext : ∀ t ∈ tracks, extract t.file_path = some (fv t))
    (hbad : analyze_mood (fv bad) = none)
    (hgood : ∀ t ∈ tracks, t ≠ bad → analyze_mood (fv t) = some (mv t)) :
    (process_and_store catalog file_on_disk extract batch_size db0).1.processed_count
        = tracks.length - 1 ∧
    (process_and_store catalog file_on_disk extract batch_size db0).1.error_count = 1 ∧
    (process_and_store catalog file_on_disk extract batch_size db0).2 = none ∧
    ∀ t ∈ tracks, t ≠ bad →
      songRowOf t ∈
        (process_and_store catalog file_on_disk extract batch_size db0).1.db.committed_songs ∧
      moodRowOf t (mv t) ∈
        (process_and_store catalog file_on_disk extract
            batch_size db0).1.db.committed_mood_analysis := by
  have htne : tracks ≠ [] := List.ne_nil_of_mem hmem
  have hrun : process_and_store catalog file_on_disk extract batch_size db0 =
      (processLoop extract batch_size tracks 0
         { db := db0, processed_count := 0, error_count := 0 }, none) := by
    simp [process_and_store, hload, List.isEmpty_iff, htne]
  have hok : ∀ t ∈ tracks, t ≠ bad → item_ok extract t = true := by
    intro t ht hne
    simp [item_ok, hext t ht, hgood t ht hne]
  have hbadok : ∀ t ∈ tracks, t = bad → item_ok extract t = false := by
    intro t ht hte
    subst hte
    simp [item_ok, hext t ht, hbad]
  have hfail_count : tracks.countP (fun t => !item_ok extract t) = 1 := by
    rw [← hcount, List.count_eq_countP]
    apply List.countP_congr
    intro a ha
    by_cases hab : a = bad
    · subst hab
      simp [hbadok a ha rfl]
    · simp [hok a ha hab, hab]
  have hlen : tracks.length = tracks.countP (item_ok extract) +
      tracks.countP (fun t => !item_ok extract t) := by
    have hsplit := List.length_eq_countP_add_countP (item_ok extract) tracks
    simpa using hsplit
  have hsucc_count : tracks.countP (item_ok extract) = tracks.length - 1 := by omega
  obtain ⟨hp, he⟩ := processLoop_counts extract batch_size tracks 0
    { db := db0, processed_count := 0, error_count := 0 }
  refine ⟨?_, ?_, ?_, ?_⟩
  · rw [hrun]
    simpa [hsucc_count] using hp
  · rw [hrun]
    simpa [hfail_count] using he
  · rw [hrun]
  · intro t ht hne
    have hsucc : (extract t.file_path).bind analyze_mood = some (mv t) := by
      rw [hext t ht]
      simpa using hgood t ht hne
    obtain ⟨hs, hm⟩ := processLoop_success_mem extract batch_size tracks 0
      { db := db0, processed_count := 0, error_count := 0 } t (mv t) ht hsucc hnodup
    obtain ⟨hcs, hcm⟩ := processLoop_committed_eq extract batch_size tracks 0
      { db := db0, processed_count := 0, error_count := 0 } htne
    rw [hrun]
    exact ⟨hcs ▸ hs, hcm ▸ hm⟩

/-- Witness for C5: a three-track run in which only track 2 fails scoring. -/
theorem batch_run_one_scoring_failure_witness :
    (process_and_store (some catalogW) (fun _ => true) extractW 100
        empty_database).1.processed_count = 2 ∧
    (process_and_store (some catalogW) (fun _ => true) extractW 100
        empty_database).1.error_count = 1 ∧
    (process_and_store (some catalogW) (fun _ => true) extractW 100
        empty_database).2 = none ∧
    ∀ t ∈ tracksW, t ≠ badW →
      songRowOf t ∈ (process_and_store (some catalogW) (fun _ => true) extractW 100
          empty_database).1.db.committed_songs ∧
      moodRowOf t mvExample ∈ (process_and_store (some catalogW) (fun _ => true) extractW 100
          empty_database).1.db.committed_mood_analysis := by
  have hgood : ∀ t ∈ tracksW, t ≠ badW → analyze_mood (fvOfW t) = some mvExample := by
    intro t ht hne
    simp only [tracksW, List.mem_cons, List.not_mem_nil, or_false] at ht
    rcases ht with rfl | rfl | rfl
    · simp only [fvOfW, t1W]
      rw [if_neg (by decide)]
      exact analyze_mood_fvExample
    · exact absurd rfl hne
    · simp only [fvOfW, t3W]
      rw [if_neg (by decide)]
      exact analyze_mood_fvExample
  have h := batch_run_one_scoring_failure (some catalogW) (fun _ => true) extractW 100
    empty_database tracksW badW fvOfW (fun _ => mvExample)
    (by decide) (by decide) (by decide) (by decide)
    (fun t _ => rfl)
    (by simp [fvOfW, badW, analyze_mood, fvBadW])
    hgood
  exact ⟨h.1, h.2.1, h.2.2.1, h.2.2.2⟩

/-- C6: an unreadable catalog loads as the empty sequence, and a run on it
reports "No tracks found!", returns, and neither writes nor commits anything:
the database comes back exactly as it was. -/
theorem catalog_failure_empty_run (file_on_disk : String → Bool)
    (extract : String → Option FeatureVector) (batch_size : ℕ) (db0 : DBState) :
    load_all_tracks none file_on_disk = [] ∧
    process_and_store none file_on_disk extract batch_size db0 =
      ({ db := db0, processed_count := 0, error_count := 0 }, some "No tracks found!") :=
  ⟨rfl, rfl⟩

/-- C7: upserting a `songs` row twice with the same `track_id` leaves exactly
one row for that id, the one of the latest write; inserting two
`mood_analysis` rows with the same `track_id` adds two rows for that id. -/
theorem upsert_semantics :
    (∀ (r1 r2 : SongRow) (tbl : List SongRow), r1.track_id = r2.track_id →
       (insertOrReplaceSong r2 (insertOrReplaceSong r1 tbl)).filter
           (fun x => x.track_id == r2.track_id) = [r2]) ∧
    (∀ (m1 m2 : MoodRow) (tbl : List MoodRow), m1.track_id = m2.track_id →
       ((insertMoodRow m2 (insertMoodRow m1 tbl)).filter
           (fun x => x.track_id == m2.track_id)).length
         = (tbl.filter (fun x => x.track_id == m2.track_id)).length + 2) := by
  constructor
  · intro r1 r2 tbl h
    have h0 : ∀ (l : List SongRow),
        (l.filter (fun x => x.track_id != r2.track_id)).filter
            (fun x => x.track_id == r2.track_id) = [] := by
      intro l
      induction l with
      | nil => rfl
      | cons a l ih =>
          by_cases ha : a.track_id = r2.track_id <;> simp [ha, ih]
    simp [insertOrReplaceSong, List.filter_append, h, h0]
  · intro m1 m2 tbl h
    simp [insertMoodRow, List.filter_append, h]

/-- Witness for C7 at two concrete rows with the same id. -/
theorem upsert_semantics_witness :
    (insertOrReplaceSong r2W (insertOrReplaceSong r1W [])).filter
        (fun x => x.track_id == r2W.track_id) = [r2W] ∧
    ((insertMoodRow m2W (insertMoodRow m1W [])).filter
        (fun x => x.track_id == m2W.track_id)).length
      = (([] : List MoodRow).filter (fun x => x.track_id == m2W.track_id)).length + 2 :=
  ⟨upsert_semantics.1 r1W r2W [] rfl, upsert_semantics.2 m1W m2W [] rfl⟩

/-- C8 counterexample: a feature vector carrying only the four keys the
scorer reads — with `mfcc_0`, `spectral_bandwidth` and `chroma_mean` all
absent — on which `analyze_mood` nevertheless returns a mood vector, contrary
to the claim that any absent required key yields a failure signal. -/
theorem mood_scorer_required_keys_counterexample :
    fvExample "mfcc_0" = none ∧ fvExample "spectral_bandwidth" = none ∧
    fvExample "chroma_mean" = none ∧ analyze_mood fvExample ≠ none := by
  refine ⟨rfl, rfl, rfl, ?_⟩
  simp [analyze_mood_fvExample]

/-- C8 (amended): `analyze_mood` returns a failure signal exactly when one of
the four keys it reads — `tempo`, `rms_energy`, `spectral_centroid`,
`zero_crossing_rate` — is absent or non-numeric; in particular it returns a
mood vector on every input with all required keys numeric, but absence of the
remaining required keys alone never causes a failure. -/
theorem mood_scorer_failure_condition (features : FeatureVector) :
    analyze_mood features = none ↔
      (features "tempo" = none ∨ features "rms_energy" = none ∨
       features "spectral_centroid" = none ∨ features "zero_crossing_rate" = none) := by
  unfold analyze_mood
  rcases hT : features "tempo" with _ | tempo <;>
  rcases hR : features "rms_energy" with _ | rms <;>
  rcases hC : features "spectral_centroid" with _ | cen <;>
  rcases hZ : features "zero_crossing_rate" with _ | zcr <;>
  simp

/-- C9: the scorer's output depends only on `tempo`, `rms_energy`,
`spectral_centroid` and `zero_crossing_rate`: two feature vectors that agree
on those four keys score identically, whatever the other keys hold. -/
theorem mood_scorer_depends_only_on_four_keys (f g : FeatureVector)
    (h1 : f "tempo" = g "tempo") (h2 : f "rms_energy" = g "rms_energy")
    (h3 : f "spectral_centroid" = g "spectral_centroid")
    (h4 : f "zero_crossing_rate" = g "zero_crossing_rate") :
    analyze_mood f = analyze_mood g := by
  unfold analyze_mood
  rw [h1, h2, h3, h4]

/-- Witness for C9: adding an `mfcc_0` key does not change the score. -/
theorem mood_scorer_depends_only_on_four_keys_witness :
    fvExample "mfcc_0" = none ∧ fvExtraKey "mfcc_0" = some 99 ∧
    analyze_mood fvExtraKey = analyze_mood fvExample :=
  ⟨rfl, rfl, mood_scorer_depends_only_on_four_keys fvExtraKey fvExample rfl rfl rfl rfl⟩

/-- C10: when the database file exists and the confirmation answer is
anything whose lowercase form is not `"y"`, `create_database` returns `False`
and the file is returned untouched. -/
theorem create_database_cancel_preserves (db : DBState) (answer : String)
    (h : str_lower answer ≠ "y") :
    create_database (some db) answer = (false, some db) := by
  simp [create_database, h]

/-- Witness for C10 with answer `"n"`. -/
theorem create_database_cancel_preserves_witness :
    create_database (some empty_database) "n" = (false, some empty_database) :=
  create_database_cancel_preserves empty_database "n" (by decide)
